import Mathlib

/-!
# Chat front end: session service and conversation controller

A shallow embedding of `frontend/src/sessionservice.js` (`createSession`,
`sendMessage`) and of the state transitions of `frontend/src/components/Chat.jsx`
(the initialization effect and `handleSend`).

JavaScript values are modelled by `JsVal`, a rejected promise or a thrown
exception by `Except.error`, and an `await` by splitting the asynchronous function
at the suspension point: the part that runs before the call is issued and the
continuation that runs once the call has settled.  React state is an explicit
record.  A handler reads `text`, `sessionId` and `loading` as the render that
created it saw them, while a state setter acts on the state cells themselves:
`handleSendBegin` is `handleSend` as created by a render that is up to date with
the cells, `handleSendBeginAt` is `handleSend` as created by any render, and the
transition system keeps the last render next to the cells.
-/

namespace Chat

/-! ## JavaScript values -/

/-- The JavaScript values that can reach the component: `undefined`, `null`, and
what `JSON.parse` produces.  Numbers are the integer-valued ones; the code never
inspects a number other than through truthiness. -/
inductive JsVal where
  | undefined
  | null
  | bool (b : Bool)
  | num (n : Int)
  | str (s : String)
  | arr (items : List JsVal)
  | obj (fields : List (String × JsVal))

/-- A thrown JavaScript error: its constructor name and its message. -/
structure JsError where
  name : String
  message : String
  deriving DecidableEq, Repr

/-- JavaScript `ToBoolean`: `undefined`, `null`, `false`, `0` and the empty string
are falsy, every other value is truthy. -/
def jsTruthy : JsVal → Bool
  | .undefined => false
  | .null => false
  | .bool b => b
  | .num n => n != 0
  | .str s => s != ""
  | .arr _ => true
  | .obj _ => true

/-- Own-property lookup; an object is given by its own properties, one entry per
property name. -/
def lookupField (key : String) : List (String × JsVal) → JsVal
  | [] => .undefined
  | (k, v) :: rest => if k == key then v else lookupField key rest

/-- Property access `v.key` for a property name absent from the built-in
prototypes (`reply`, `session_id`): it throws a `TypeError` on `null` and on
`undefined`, reads the field of an object, and is `undefined` on any other
value. -/
def getProp (v : JsVal) (key : String) : Except JsError JsVal :=
  match v with
  | .undefined =>
      .error ⟨"TypeError", "Cannot read properties of undefined (reading " ++ key ++ ")"⟩
  | .null =>
      .error ⟨"TypeError", "Cannot read properties of null (reading " ++ key ++ ")"⟩
  | .obj fields => .ok (lookupField key fields)
  | _ => .ok .undefined

/-! ## `String.prototype.trim` -/

/-- The code points that `String.prototype.trim` strips: ECMAScript `WhiteSpace`
(tab, vertical tab, form feed, the space separators, U+FEFF) and
`LineTerminator` (LF, CR, U+2028, U+2029). -/
def isJsWhiteSpace (c : Char) : Bool :=
  let n := c.toNat
  n == 0x09 || n == 0x0A || n == 0x0B || n == 0x0C || n == 0x0D || n == 0x20 ||
  n == 0xA0 || n == 0x1680 || (0x2000 ≤ n && n ≤ 0x200A) || n == 0x2028 ||
  n == 0x2029 || n == 0x202F || n == 0x205F || n == 0x3000 || n == 0xFEFF

/-- The characters of `s.trim()`: leading and trailing white space removed. -/
def trimChars (cs : List Char) : List Char :=
  ((cs.dropWhile isJsWhiteSpace).reverse.dropWhile isJsWhiteSpace).reverse

/-- JavaScript `s.trim()`. -/
def jsTrim (s : String) : String :=
  String.mk (trimChars s.data)

/-- A text that is empty or consists only of white space. -/
def isBlank (s : String) : Bool :=
  s.data.all isJsWhiteSpace

/-! ## The session service -/

/-- The arguments of a `fetch` call: the URL and the `method`, `headers` and
`body` options.  The body is the value handed to `JSON.stringify`. -/
structure Request where
  url : String
  method : String
  headers : List (String × String)
  body : Option JsVal

/-- What the code reads of a `fetch` response: the status, the status text and
the outcome of `res.json()`, which rejects when the body is not JSON. -/
structure Response where
  status : Nat
  statusText : String
  json : Except JsError JsVal

/-- The getter `res.ok` of the Fetch standard: the status is in the range 200 to 299. -/
def Response.ok (res : Response) : Bool :=
  decide (200 ≤ res.status ∧ res.status ≤ 299)

/-- The network as the service sees it: `fetch` either rejects (transport
failure) or resolves with a response. -/
abbrev Fetch := Request → Except JsError Response

/-- The request built by `createSession`. -/
def sessionRequest (API_BASE_URL : String) : Request :=
  { url := API_BASE_URL ++ "/api/session",
    method := "POST",
    headers := [("Content-Type", "application/json")],
    body := none }

/-- The request built by `sendMessage`; its body is `{ session_id, message: text }`. -/
def messageRequest (API_BASE_URL : String) (session_id text : JsVal) : Request :=
  { url := API_BASE_URL ++ "/api/message",
    method := "POST",
    headers := [("Content-Type", "application/json")],
    body := some (.obj [("session_id", session_id), ("message", text)]) }

/-- The function `createSession()`: the list of `fetch` calls it issues and the way its
promise settles.  The `catch` block logs and rethrows the same error. -/
def createSession (API_BASE_URL : String) (fetch : Fetch) : List Request × Except JsError JsVal :=
  let req := sessionRequest API_BASE_URL
  ([req],
    match fetch req with
    | .error e => .error e
    | .ok res =>
        if !res.ok then
          .error ⟨"Error", "Failed to create session: " ++ res.statusText⟩
        else
          match res.json with
          | .error e => .error e
          | .ok data => getProp data "session_id")

/-- The function `sendMessage(session_id, text)`: the list of `fetch` calls it issues and
the way its promise settles.  The `catch` block logs and rethrows the same
error. -/
def sendMessage (API_BASE_URL : String) (fetch : Fetch) (session_id text : JsVal) :
    List Request × Except JsError JsVal :=
  let req := messageRequest API_BASE_URL session_id text
  ([req],
    match fetch req with
    | .error e => .error e
    | .ok res =>
        if !res.ok then
          .error ⟨"Error", "Failed to send message: " ++ res.statusText⟩
        else
          res.json)

/-! ## Component state -/

/-- An entry of the `messages` state: `{ role, text }`. -/
structure Message where
  role : String
  text : JsVal

/-- The `useState` cells of `Chat`. -/
structure ChatState where
  sessionId : JsVal
  messages : List Message
  text : String
  loading : Bool
  error : Option String
  initializing : Bool

/-- The values the `useState` calls start from. -/
def initialState : ChatState :=
  { sessionId := .null, messages := [], text := "", loading := false,
    error := none, initializing := true }

/-! ## The initialization effect -/

/-- The part of the mount effect that runs before `await createSession()`. -/
def initBegin (st : ChatState) : ChatState :=
  { st with initializing := true }

/-- The part of the mount effect that runs once `createSession` has settled with
`r`: the rest of the `try` block, or the `catch` block, and then `finally`. -/
def initEnd (st : ChatState) (r : Except JsError JsVal) : ChatState :=
  let settled : ChatState :=
    match r with
    | .ok sid => { st with sessionId := sid, error := none }
    | .error _ =>
        { st with
            error := some "Failed to initialize session. Please check if the backend server is running." }
  { settled with initializing := false }

/-- The state of a freshly mounted component while `createSession` is outstanding. -/
def mounting : ChatState :=
  initBegin initialState

/-- The state of a freshly mounted component once its initialization effect has
run to completion against the network `fetch`. -/
def mounted (API_BASE_URL : String) (fetch : Fetch) : ChatState :=
  initEnd mounting (createSession API_BASE_URL fetch).2

/-- The `onChange` handler of the input: `setText(e.target.value)`. -/
def changeText (st : ChatState) (value : String) : ChatState :=
  { st with text := value }

/-! ## `handleSend` -/

/-- `Array.prototype.filter` with a callback that receives the element and its
index; `i` is the index of the head of the list. -/
def filterIdxFrom {α : Type} (keep : α → Int → Bool) : List α → Int → List α
  | [], _ => []
  | x :: xs, i =>
      if keep x i then x :: filterIdxFrom keep xs (i + 1) else filterIdxFrom keep xs (i + 1)

/-- The updater of the `catch` branch:
`prev.filter((msg, idx) => !(idx === prev.length - 1 && msg.role === "user"))`. -/
def rollback (prev : List Message) : List Message :=
  filterIdxFrom (fun msg idx => !(idx == (prev.length : Int) - 1 && msg.role == "user")) prev 0

/-- The arguments of a `sendMessage(sessionId, userMsg.text)` call. -/
structure SendCall where
  session : JsVal
  text : JsVal

/-- The part of `handleSend` that runs before the `await`: the guard, the
optimistic append and the three plain state updates.  The second component is
the `sendMessage` call that is issued, if any. -/
def handleSendBegin (st : ChatState) : ChatState × Option SendCall :=
  if !jsTruthy (.str (jsTrim st.text)) || !jsTruthy st.sessionId || st.loading then
    (st, none)
  else
    let userMsg : Message := { role := "user", text := .str (jsTrim st.text) }
    ({ st with
        messages := st.messages ++ [userMsg],
        text := "",
        loading := true,
        error := none },
     some { session := st.sessionId, text := userMsg.text })

/-- The part of `handleSend` that runs before the `await`, for the handler created
by a render that saw `seen`, run while the state cells hold `st`.  The guard, the
text of `userMsg` and the session passed to `sendMessage` are read from `seen`;
`setMessages` applies its updater to the cell, the other three setters overwrite
theirs. -/
def handleSendBeginAt (seen st : ChatState) : ChatState × Option SendCall :=
  if !jsTruthy (.str (jsTrim seen.text)) || !jsTruthy seen.sessionId || seen.loading then
    (st, none)
  else
    let userMsg : Message := { role := "user", text := .str (jsTrim seen.text) }
    ({ st with
        messages := st.messages ++ [userMsg],
        text := "",
        loading := true,
        error := none },
     some { session := seen.sessionId, text := userMsg.text })

/-- The part of `handleSend` that runs once `sendMessage` has settled with `r`:
the rest of the `try` block (which throws when `r.reply` does), the `catch`
branch and the `finally` branch. -/
def handleSendEnd (st : ChatState) (r : Except JsError JsVal) : ChatState :=
  let settled : ChatState :=
    match r.bind (fun v => getProp v "reply") with
    | .ok reply =>
        { st with messages := st.messages ++ [{ role := "agent", text := reply }] }
    | .error _ =>
        { st with
            error := some "Failed to send message. Please try again.",
            messages := rollback st.messages }
  { settled with loading := false }

/-- A whole `handleSend` run against a `sendMessage` that answers `send`. -/
def handleSend (send : JsVal → JsVal → Except JsError JsVal) (st : ChatState) : ChatState :=
  match handleSendBegin st with
  | (st1, none) => st1
  | (st1, some call) => handleSendEnd st1 (send call.session call.text)

/-! ## The controller as a transition system -/

/-- The events the controller reacts to.  `render` is React rendering the
component again, which creates the handlers anew from the state cells. -/
inductive Event where
  | initSettled (r : Except JsError JsVal)
  | render
  | change (value : String)
  | submit
  | sendSettled (i : Nat) (r : Except JsError JsVal)

/-- The component: the state cells `ui`, the state `rendered` that the last
render saw and that its handlers have captured, and the asynchronous calls that
have been issued and have not settled yet. -/
structure Sys where
  ui : ChatState
  rendered : ChatState
  initOutstanding : Bool
  sends : List SendCall

/-- A freshly mounted component: the first render saw the initial state and the
effect has issued `createSession`. -/
def Sys.start : Sys :=
  { ui := mounting, rendered := initialState, initOutstanding := true, sends := [] }

/-- One transition.  `initSettled` applies while `createSession` is outstanding,
`sendSettled i` settles the `i`-th outstanding `sendMessage` call, if there is
one; an event that does not apply leaves the system as it is.  `submit` runs the
`handleSend` of the last render. -/
def Sys.step (s : Sys) : Event → Sys
  | .initSettled r =>
      if s.initOutstanding then
        { s with ui := initEnd s.ui r, initOutstanding := false }
      else s
  | .render => { s with rendered := s.ui }
  | .change value => { s with ui := changeText s.ui value }
  | .submit =>
      { s with
          ui := (handleSendBeginAt s.rendered s.ui).1,
          sends := s.sends ++ (handleSendBeginAt s.rendered s.ui).2.toList }
  | .sendSettled i r =>
      if i < s.sends.length then
        { s with ui := handleSendEnd s.ui r, sends := s.sends.eraseIdx i }
      else s

/-- The system after a sequence of events, from a fresh mount. -/
def Sys.run (events : List Event) : Sys :=
  events.foldl Sys.step Sys.start

/-- The system after a sequence of events when React renders again before each. -/
def Sys.runRendered (events : List Event) : Sys :=
  events.foldl (fun s ev => (s.step .render).step ev) Sys.start

/-! ## Scenarios -/

/-- A ready component with session `abc123`, an empty log and `text` typed in. -/
def readyState (text : String) : ChatState :=
  { sessionId := .str "abc123", messages := [], text := text, loading := false,
    error := none, initializing := false }

/-- A backend that answers every request with status 200 and the given body. -/
def okFetch (body : JsVal) : Fetch :=
  fun _ => .ok { status := 200, statusText := "OK", json := .ok body }

/-- A backend that answers every request with status 500. -/
def serverErrorFetch : Fetch :=
  fun _ => .ok { status := 500, statusText := "Internal Server Error", json := .ok (.obj []) }

/-- A network on which every `fetch` rejects. -/
def offlineFetch : Fetch :=
  fun _ => .error ⟨"TypeError", "Failed to fetch"⟩

/-- A component with session `abc123` while a send is outstanding. -/
def sendingState (text : String) : ChatState :=
  { sessionId := .str "abc123", messages := [{ role := "user", text := .str "hi" }],
    text := text, loading := true, error := none, initializing := false }

/-- Initialization succeeds with session `abc123`, the component renders, `hello`
is typed, the component renders, and the form is submitted twice before the
next render. -/
def doubleSubmit : List Event :=
  [.initSettled (.ok (.str "abc123")), .render, .change "hello", .render, .submit, .submit]

/-- A component whose stored session identifier is the empty string. -/
def emptySessionState (text : String) : ChatState :=
  { sessionId := .str "", messages := [], text := text, loading := false,
    error := none, initializing := false }

/-! # Properties -/

/-! ## Trimming -/

theorem trimChars_of_all {cs : List Char} (h : cs.all isJsWhiteSpace = true) :
    trimChars cs = [] := by
  have hdrop : cs.dropWhile isJsWhiteSpace = [] := by
    rw [List.dropWhile_eq_nil_iff]
    intro c hc
    exact (List.all_eq_true.mp h) c hc
  simp [trimChars, hdrop]

theorem jsTrim_of_isBlank {s : String} (h : isBlank s = true) : jsTrim s = "" := by
  unfold jsTrim
  rw [trimChars_of_all h]

theorem trimChars_eq_nil_iff (cs : List Char) :
    trimChars cs = [] ↔ cs.all isJsWhiteSpace = true := by
  constructor
  · intro h
    unfold trimChars at h
    rw [List.reverse_eq_nil_iff, List.dropWhile_eq_nil_iff] at h
    have hdrop : cs.dropWhile isJsWhiteSpace = [] := by
      by_contra hne
      have hhead := List.head_dropWhile_not isJsWhiteSpace cs hne
      have hmem : (cs.dropWhile isJsWhiteSpace).head hne ∈ (cs.dropWhile isJsWhiteSpace).reverse :=
        List.mem_reverse.mpr (List.head_mem hne)
      rw [h _ hmem] at hhead
      exact Bool.noConfusion hhead
    rw [List.dropWhile_eq_nil_iff] at hdrop
    exact List.all_eq_true.mpr hdrop
  · exact trimChars_of_all

theorem jsTrim_eq_empty_iff (s : String) : jsTrim s = "" ↔ isBlank s = true := by
  unfold jsTrim isBlank
  rw [← trimChars_eq_nil_iff]
  constructor
  · intro h
    exact congrArg String.data h
  · intro h
    rw [h]

/-! ## The guard of `handleSend` -/

theorem handleSendBegin_of_guard {st : ChatState}
    (h : (!jsTruthy (.str (jsTrim st.text)) || !jsTruthy st.sessionId || st.loading) = true) :
    handleSendBegin st = (st, none) := by
  unfold handleSendBegin
  rw [if_pos h]

theorem handleSendBegin_of_pass {st : ChatState}
    (h : ¬ (!jsTruthy (.str (jsTrim st.text)) || !jsTruthy st.sessionId || st.loading) = true) :
    handleSendBegin st =
      ({ st with
          messages := st.messages ++ [{ role := "user", text := .str (jsTrim st.text) }],
          text := "",
          loading := true,
          error := none },
        some { session := st.sessionId, text := .str (jsTrim st.text) }) := by
  unfold handleSendBegin
  rw [if_neg h]

theorem handleSendBeginAt_self (st : ChatState) :
    handleSendBeginAt st st = handleSendBegin st := rfl

theorem handleSendBeginAt_of_guard {seen st : ChatState}
    (h : (!jsTruthy (.str (jsTrim seen.text)) || !jsTruthy seen.sessionId || seen.loading) = true) :
    handleSendBeginAt seen st = (st, none) := by
  unfold handleSendBeginAt
  rw [if_pos h]

theorem handleSend_of_no_call {st : ChatState} (h : handleSendBegin st = (st, none))
    (send : JsVal → JsVal → Except JsError JsVal) : handleSend send st = st := by
  unfold handleSend
  rw [h]

theorem handleSendBegin_of_call {st : ChatState} {call : SendCall}
    (h : (handleSendBegin st).2 = some call) :
    handleSendBegin st =
      ({ st with
          messages := st.messages ++ [{ role := "user", text := .str (jsTrim st.text) }],
          text := "",
          loading := true,
          error := none },
        some call) ∧
      call = { session := st.sessionId, text := .str (jsTrim st.text) } := by
  by_cases hguard : (!jsTruthy (.str (jsTrim st.text)) || !jsTruthy st.sessionId || st.loading) = true
  · rw [handleSendBegin_of_guard hguard] at h
    simp at h
  · rw [handleSendBegin_of_pass hguard] at h ⊢
    simp only [Option.some.injEq] at h
    subst h
    exact ⟨rfl, rfl⟩

/-! ## The rollback filter -/

theorem filterIdxFrom_last {α : Type} (q : α → Bool) (n : Int) (x : α) :
    ∀ (l : List α) (i : Int), i + l.length = n →
      filterIdxFrom (fun m idx => !(idx == n && q m)) (l ++ [x]) i =
        if q x then l else l ++ [x] := by
  intro l
  induction l with
  | nil =>
    intro i hi
    have : i = n := by simpa using hi
    subst this
    cases hq : q x <;> simp [filterIdxFrom, hq]
  | cons y ys ih =>
    intro i hi
    have hne : i ≠ n := by
      simp only [List.length_cons, Nat.cast_add, Nat.cast_one] at hi
      omega
    have hstep : (i + 1) + (ys.length : Int) = n := by
      simp only [List.length_cons, Nat.cast_add, Nat.cast_one] at hi
      omega
    have hrec := ih (i + 1) hstep
    have hkeep : (!(i == n && q y)) = true := by simp [hne]
    rw [List.cons_append, filterIdxFrom, if_pos hkeep, hrec]
    cases hq : q x <;> simp

theorem rollback_nil : rollback [] = [] := rfl

theorem rollback_append_singleton (l : List Message) (m : Message) :
    rollback (l ++ [m]) = if m.role = "user" then l else l ++ [m] := by
  unfold rollback
  have h := filterIdxFrom_last (fun msg : Message => msg.role == "user")
    (((l ++ [m]).length : Int) - 1) m l 0 (by simp)
  rw [h]
  by_cases hm : m.role = "user" <;> simp [hm]

/-! ## Claims -/

/-- C10. The rollback of the `catch` branch is positional: the result is the
list without its last element when the list is non-empty and its last element
has role `user`, and the list itself otherwise; the result is an initial segment
of the list, so the remaining elements keep their values and their order, and at
most one element is removed. -/
theorem rollback_positional (l : List Message) :
    rollback l = (if l.getLast?.map Message.role = some "user" then l.dropLast else l) ∧
      rollback l <+: l ∧ l.length ≤ (rollback l).length + 1 := by
  rcases List.eq_nil_or_concat l with rfl | ⟨front, m, rfl⟩
  · simp [rollback_nil]
  · rw [List.concat_eq_append, rollback_append_singleton]
    by_cases hm : m.role = "user"
    · simp [hm]
    · simp [hm]

/-- C3. When the input text is empty or consists only of white space,
`handleSend` returns at its guard: it issues no `sendMessage` call and the whole
state (session, messages, input text, pending flag, error, initializing flag) is
what it was. -/
theorem handleSend_blank_noop (st : ChatState) (hblank : isBlank st.text = true) :
    handleSendBegin st = (st, none) ∧
      ∀ send : JsVal → JsVal → Except JsError JsVal, handleSend send st = st := by
  have hguard : handleSendBegin st = (st, none) := by
    apply handleSendBegin_of_guard
    simp [jsTruthy, jsTrim_of_isBlank hblank]
  exact ⟨hguard, handleSend_of_no_call hguard⟩

/-- C3, at a ready component whose input holds three spaces. -/
theorem handleSend_blank_noop_witness :
    isBlank (readyState "   ").text = true ∧
      handleSendBegin (readyState "   ") = (readyState "   ", none) :=
  ⟨by decide, (handleSend_blank_noop (readyState "   ") (by decide)).1⟩

/-- C4. While `loading` is true, `handleSend` returns at its guard whatever the
input text is: it issues no `sendMessage` call, appends and queues nothing, and
leaves the whole state as it was. -/
theorem handleSend_pending_noop (st : ChatState) (hpending : st.loading = true) :
    handleSendBegin st = (st, none) ∧
      ∀ send : JsVal → JsVal → Except JsError JsVal, handleSend send st = st := by
  have hguard : handleSendBegin st = (st, none) := by
    apply handleSendBegin_of_guard
    simp [hpending]
  exact ⟨hguard, handleSend_of_no_call hguard⟩

/-- C4, at a component with a send outstanding and `hello` in the input. -/
theorem handleSend_pending_noop_witness :
    (sendingState "hello").loading = true ∧
      handleSendBegin (sendingState "hello") = (sendingState "hello", none) :=
  ⟨rfl, (handleSend_pending_noop (sendingState "hello") rfl).1⟩

theorem handleSendEnd_loading (st : ChatState) (r : Except JsError JsVal) :
    (handleSendEnd st r).loading = false := rfl

theorem handleSendEnd_error (st : ChatState) (e : JsError) :
    handleSendEnd st (.error e) =
      { st with
          error := some "Failed to send message. Please try again.",
          messages := rollback st.messages,
          loading := false } := rfl

theorem handleSendEnd_reply (st : ChatState) (v r : JsVal) (h : getProp v "reply" = .ok r) :
    handleSendEnd st (.ok v) =
      { st with
          messages := st.messages ++ [{ role := "agent", text := r }],
          loading := false } := by
  simp [handleSendEnd, Except.bind, h]

theorem handleSend_of_call {st : ChatState} {call : SendCall}
    (h : (handleSendBegin st).2 = some call)
    (send : JsVal → JsVal → Except JsError JsVal) :
    handleSend send st = handleSendEnd (handleSendBegin st).1 (send call.session call.text) := by
  unfold handleSend
  rcases hb : handleSendBegin st with ⟨st1, c⟩
  rw [hb] at h
  simp only at h
  subst h
  rfl

/-- C1. Take a state with a session present, an input text whose trimmed form is
non-empty and `loading` false.  If the `sendMessage` call that `handleSend`
issues fails, then that call carried the session and the trimmed text, the user
message was appended before the call, and once
`handleSend` has completed the message list is the one before the submit (so of
the same length), the error is set and `loading` is false. -/
theorem handleSend_failed_send (send : JsVal → JsVal → Except JsError JsVal)
    (st : ChatState) (sid : String) (call : SendCall) (e : JsError)
    (hsession : st.sessionId = .str sid) (htext : jsTrim st.text ≠ "")
    (hidle : st.loading = false)
    (hcall : (handleSendBegin st).2 = some call)
    (hfail : send call.session call.text = .error e) :
    call = { session := .str sid, text := .str (jsTrim st.text) } ∧ call.text ≠ .str "" ∧
    (handleSendBegin st).1.messages =
        st.messages ++ [{ role := "user", text := .str (jsTrim st.text) }] ∧
      (handleSend send st).messages = st.messages ∧
      (handleSend send st).messages.length = st.messages.length ∧
      (handleSend send st).error = some "Failed to send message. Please try again." ∧
      (handleSend send st).loading = false ∧
      handleSend send st =
        { st with text := "", error := some "Failed to send message. Please try again." } := by
  obtain ⟨hbegin, hargs⟩ := handleSendBegin_of_call hcall
  rw [handleSend_of_call hcall send, hfail, handleSendEnd_error, hbegin]
  simp [rollback_append_singleton, hidle, hargs, hsession, htext]

/-- C1, at scenario C: session `abc123`, submit `hello`, the backend answers
with status 500. -/
theorem handleSend_failed_send_witness :
    (readyState "hello").sessionId = .str "abc123" ∧ jsTrim (readyState "hello").text ≠ "" ∧
      (readyState "hello").loading = false ∧
      (handleSendBegin (readyState "hello")).2 = some ⟨.str "abc123", .str "hello"⟩ ∧
      (sendMessage "" serverErrorFetch (.str "abc123") (.str "hello")).2 =
        .error ⟨"Error", "Failed to send message: Internal Server Error"⟩ ∧
      (handleSend (fun s t => (sendMessage "" serverErrorFetch s t).2) (readyState "hello")).messages
        = [] ∧
      (handleSend (fun s t => (sendMessage "" serverErrorFetch s t).2) (readyState "hello")).error
        = some "Failed to send message. Please try again." ∧
      (handleSend (fun s t => (sendMessage "" serverErrorFetch s t).2) (readyState "hello")).loading
        = false :=
  have h := handleSend_failed_send (fun s t => (sendMessage "" serverErrorFetch s t).2)
    (readyState "hello") "abc123" ⟨.str "abc123", .str "hello"⟩
    ⟨"Error", "Failed to send message: Internal Server Error"⟩ rfl (by decide) rfl rfl rfl
  ⟨rfl, by decide, rfl, rfl, rfl, h.2.2.2.1, h.2.2.2.2.2.1, h.2.2.2.2.2.2.1⟩

/-- C2. Take a state with a session present, an input text whose trimmed form is
non-empty and `loading` false.  If the `sendMessage` call that `handleSend`
issues succeeds with a value whose `reply` is `r`, then once `handleSend` has
completed the message list is the one before the submit followed by exactly two
entries, a `user` entry and then an `agent` entry whose text is `r`; `loading` is
true while the call is outstanding and false at the end. -/
theorem handleSend_successful_send (send : JsVal → JsVal → Except JsError JsVal)
    (st : ChatState) (sid : String) (call : SendCall) (v r : JsVal)
    (hsession : st.sessionId = .str sid) (htext : jsTrim st.text ≠ "")
    (hidle : st.loading = false)
    (hcall : (handleSendBegin st).2 = some call)
    (hok : send call.session call.text = .ok v) (hreply : getProp v "reply" = .ok r) :
    call = { session := .str sid, text := .str (jsTrim st.text) } ∧ call.text ≠ .str "" ∧
      (handleSend send st).messages =
        st.messages ++
          [{ role := "user", text := .str (jsTrim st.text) }, { role := "agent", text := r }] ∧
      (handleSend send st).messages.length = st.messages.length + 2 ∧
      (handleSendBegin st).1.loading = true ∧
      (handleSend send st).loading = false ∧
      handleSend send st =
        { st with
            messages := st.messages ++
              [{ role := "user", text := .str (jsTrim st.text) }, { role := "agent", text := r }],
            text := "",
            error := none } := by
  obtain ⟨hbegin, hargs⟩ := handleSendBegin_of_call hcall
  rw [handleSend_of_call hcall send, hok, handleSendEnd_reply _ v r hreply, hbegin]
  simp [hidle, hargs, hsession, htext]

/-- C2, at scenario B: session `abc123`, submit `hello`, the backend answers
with the body `{reply: "I feel fine"}`. -/
theorem handleSend_successful_send_witness :
    (readyState "hello").sessionId = .str "abc123" ∧ jsTrim (readyState "hello").text ≠ "" ∧
      (readyState "hello").loading = false ∧
      (handleSendBegin (readyState "hello")).2 = some ⟨.str "abc123", .str "hello"⟩ ∧
      (sendMessage "" (okFetch (.obj [("reply", .str "I feel fine")]))
          (.str "abc123") (.str "hello")).2 = .ok (.obj [("reply", .str "I feel fine")]) ∧
      getProp (.obj [("reply", .str "I feel fine")]) "reply" = .ok (.str "I feel fine") ∧
      (handleSend (fun s t => (sendMessage "" (okFetch (.obj [("reply", .str "I feel fine")])) s t).2)
          (readyState "hello")).messages =
        [{ role := "user", text := .str "hello" }, { role := "agent", text := .str "I feel fine" }] :=
  have h := handleSend_successful_send
    (fun s t => (sendMessage "" (okFetch (.obj [("reply", .str "I feel fine")])) s t).2)
    (readyState "hello") "abc123" ⟨.str "abc123", .str "hello"⟩
    (.obj [("reply", .str "I feel fine")]) (.str "I feel fine") rfl (by decide) rfl rfl rfl rfl
  ⟨rfl, by decide, rfl, rfl, rfl, rfl, h.2.2.1⟩

/-- C8 as stated fails twice.  With the input ` hi` (a leading space) the
appended message and the argument of `sendMessage` carry the trimmed text `hi`,
not the submitted text.  With the empty string stored as session, a session is
present, the trimmed text is non-empty and `loading` is false, yet the submit is
not accepted: nothing is appended, `loading` stays false and no call is issued. -/
theorem submitted_text_counterexample :
    ((readyState " hi").sessionId = .str "abc123" ∧ jsTrim (readyState " hi").text ≠ "" ∧
        (readyState " hi").loading = false ∧
        (handleSendBegin (readyState " hi")).1.messages = [{ role := "user", text := .str "hi" }] ∧
        (handleSendBegin (readyState " hi")).1.messages ≠
          (readyState " hi").messages ++ [{ role := "user", text := .str (readyState " hi").text }] ∧
        (handleSendBegin (readyState " hi")).2 = some ⟨.str "abc123", .str "hi"⟩ ∧
        (handleSendBegin (readyState " hi")).2 ≠
          some ⟨.str "abc123", .str (readyState " hi").text⟩) ∧
      ((emptySessionState "hello").sessionId = .str "" ∧
        jsTrim (emptySessionState "hello").text ≠ "" ∧
        (emptySessionState "hello").loading = false ∧
        (handleSendBegin (emptySessionState "hello")).1.messages = [] ∧
        (handleSendBegin (emptySessionState "hello")).1.loading = false ∧
        (handleSendBegin (emptySessionState "hello")).2 = none) := by
  refine ⟨⟨rfl, by decide, rfl, rfl, ?_, rfl, ?_⟩, rfl, by decide, rfl, rfl, rfl, rfl⟩
  · simp [handleSendBegin, readyState, jsTrim, trimChars, isJsWhiteSpace, jsTruthy]
  · simp [handleSendBegin, readyState, jsTrim, trimChars, isJsWhiteSpace, jsTruthy]

/-- C8, amended.  For every submit with a non-empty session identifier stored, an
input text whose trimmed form is non-empty and `loading` false: the message
appended has role `user` and the trimmed input text as text, that same trimmed
text is passed to `sendMessage` together with the session, and right after the
synchronous updates the input text is empty, `loading` is true and the error is
cleared; session, earlier messages and the initializing flag are untouched. -/
theorem handleSend_accept (st : ChatState) (sid : String)
    (hsession : st.sessionId = .str sid) (hsid : sid ≠ "")
    (htext : jsTrim st.text ≠ "") (hidle : st.loading = false) :
    handleSendBegin st =
      ({ st with
          messages := st.messages ++ [{ role := "user", text := .str (jsTrim st.text) }],
          text := "",
          loading := true,
          error := none },
        some { session := .str sid, text := .str (jsTrim st.text) }) := by
  have hpass : ¬ (!jsTruthy (.str (jsTrim st.text)) || !jsTruthy st.sessionId || st.loading) = true := by
    simp [jsTruthy, hsession, hsid, htext, hidle]
  rw [handleSendBegin_of_pass hpass, hsession]

/-- C8 amended, at session `abc123` and the input ` hi`. -/
theorem handleSend_accept_witness :
    (readyState " hi").sessionId = .str "abc123" ∧ "abc123" ≠ "" ∧
      jsTrim (readyState " hi").text ≠ "" ∧ (readyState " hi").loading = false ∧
      handleSendBegin (readyState " hi") =
        ({ sessionId := .str "abc123", messages := [{ role := "user", text := .str "hi" }],
           text := "", loading := true, error := none, initializing := false },
          some { session := .str "abc123", text := .str "hi" }) :=
  ⟨rfl, by decide, by decide, rfl,
    handleSend_accept (readyState " hi") "abc123" rfl (by decide) (by decide) rfl⟩

/-- C6. Before `createSession` resolves, `initializing` is true and the session is
absent, both in the initial state and once the effect has started.  When
`createSession` succeeds with the session identifier `s`, the state after
initialization holds the session `s`, `initializing` is false, the error is
cleared and the message list is empty. -/
theorem init_success (API_BASE_URL : String) (fetch : Fetch) (s : String)
    (hcreated : (createSession API_BASE_URL fetch).2 = .ok (.str s)) :
    (initialState.initializing = true ∧ initialState.sessionId = .null) ∧
      (mounting.initializing = true ∧ mounting.sessionId = .null) ∧
      (mounted API_BASE_URL fetch).sessionId = .str s ∧
      (mounted API_BASE_URL fetch).initializing = false ∧
      (mounted API_BASE_URL fetch).error = none ∧
      (mounted API_BASE_URL fetch).messages = [] ∧
      mounted API_BASE_URL fetch =
        { sessionId := .str s, messages := [], text := "", loading := false, error := none,
          initializing := false } := by
  simp [mounted, hcreated, initEnd, mounting, initBegin, initialState]

/-- C6, at scenario A: the backend answers with `session_id: "abc123"`. -/
theorem init_success_witness :
    (createSession "" (okFetch (.obj [("session_id", .str "abc123")]))).2 = .ok (.str "abc123") ∧
      mounted "" (okFetch (.obj [("session_id", .str "abc123")])) =
        { sessionId := .str "abc123", messages := [], text := "", loading := false,
          error := none, initializing := false } :=
  ⟨rfl, (init_success "" (okFetch (.obj [("session_id", .str "abc123")])) "abc123" rfl).2.2.2.2.2.2⟩

/-- With no session stored or rendered, no call outstanding and initialization
settled, an event changes at most the input text and issues no call. -/
theorem step_blocked (base : ChatState) (hnull : base.sessionId = .null) (s : Sys) (ev : Event)
    (hinit : s.initOutstanding = false) (hsends : s.sends = [])
    (hseen : s.rendered.sessionId = .null)
    (hui : ∃ t, s.ui = changeText base t) :
    (s.step ev).initOutstanding = false ∧ (s.step ev).sends = [] ∧
      (s.step ev).rendered.sessionId = .null ∧
      ∃ t, (s.step ev).ui = changeText base t := by
  obtain ⟨t, ht⟩ := hui
  cases ev with
  | initSettled r => simp [Sys.step, hinit, hsends, hseen, ht]
  | render => simp [Sys.step, hinit, hsends, ht, changeText, hnull]
  | change value => exact ⟨hinit, hsends, hseen, value, by simp [Sys.step, ht, changeText]⟩
  | submit =>
    have hguard : handleSendBeginAt s.rendered s.ui = (s.ui, none) :=
      handleSendBeginAt_of_guard (by simp [jsTruthy, hseen])
    rw [ht] at hguard
    simp [Sys.step, hguard, hinit, hsends, hseen, ht]
  | sendSettled i r => simp [Sys.step, hinit, hsends, hseen, ht]

theorem foldl_blocked (base : ChatState) (hnull : base.sessionId = .null) :
    ∀ (events : List Event) (s : Sys), s.initOutstanding = false → s.sends = [] →
      s.rendered.sessionId = .null → (∃ t, s.ui = changeText base t) →
      (events.foldl Sys.step s).sends = [] ∧
        ∃ t, (events.foldl Sys.step s).ui = changeText base t := by
  intro events
  induction events with
  | nil => intro s _ hsends _ hui; exact ⟨hsends, hui⟩
  | cons ev rest ih =>
    intro s hinit hsends hseen hui
    obtain ⟨h1, h2, h3, h4⟩ := step_blocked base hnull s ev hinit hsends hseen hui
    exact ih (s.step ev) h1 h2 h3 h4

/-- C5. If `createSession` fails, the state after initialization has no session,
`initializing` false and the error set.  From that state, whatever the input
text is, `handleSend` returns at its guard: the state is unchanged and no
`sendMessage` call is issued; and whatever events follow the failed
initialization, no call is ever outstanding and the state differs from the
failed one in the input text at most. -/
theorem init_failure (API_BASE_URL : String) (fetch : Fetch) (e : JsError)
    (hfailed : (createSession API_BASE_URL fetch).2 = .error e) :
    (mounted API_BASE_URL fetch).sessionId = .null ∧
      (mounted API_BASE_URL fetch).initializing = false ∧
      (mounted API_BASE_URL fetch).error =
        some "Failed to initialize session. Please check if the backend server is running." ∧
      (∀ t : String,
        handleSendBegin (changeText (mounted API_BASE_URL fetch) t) =
            (changeText (mounted API_BASE_URL fetch) t, none) ∧
          ∀ send : JsVal → JsVal → Except JsError JsVal,
            handleSend send (changeText (mounted API_BASE_URL fetch) t) =
              changeText (mounted API_BASE_URL fetch) t) ∧
      ∀ events : List Event,
        (Sys.run (.initSettled (.error e) :: events)).sends = [] ∧
          ∃ t, (Sys.run (.initSettled (.error e) :: events)).ui =
            changeText (mounted API_BASE_URL fetch) t := by
  have hstate : mounted API_BASE_URL fetch =
      { sessionId := .null, messages := [], text := "", loading := false,
        error := some "Failed to initialize session. Please check if the backend server is running.",
        initializing := false } := by
    simp [mounted, hfailed, initEnd, mounting, initBegin, initialState]
  have hnull : (mounted API_BASE_URL fetch).sessionId = .null := by rw [hstate]
  refine ⟨hnull, by rw [hstate], by rw [hstate], ?_, ?_⟩
  · intro t
    have hguard : handleSendBegin (changeText (mounted API_BASE_URL fetch) t) =
        (changeText (mounted API_BASE_URL fetch) t, none) :=
      handleSendBegin_of_guard (by simp [jsTruthy, changeText, hnull])
    exact ⟨hguard, handleSend_of_no_call hguard⟩
  · intro events
    have hfirst : Sys.start.step (.initSettled (.error e)) =
        { ui := mounted API_BASE_URL fetch, rendered := initialState, initOutstanding := false,
          sends := [] } := by
      simp [Sys.step, Sys.start, mounted, hfailed]
    unfold Sys.run
    rw [List.foldl_cons, hfirst]
    exact foldl_blocked (mounted API_BASE_URL fetch) hnull events _ rfl rfl rfl
      ⟨(mounted API_BASE_URL fetch).text, rfl⟩

/-- C5, at scenario D: every `fetch` rejects. -/
theorem init_failure_witness :
    (createSession "" offlineFetch).2 = .error ⟨"TypeError", "Failed to fetch"⟩ ∧
      (mounted "" offlineFetch).sessionId = .null ∧
      (mounted "" offlineFetch).initializing = false ∧
      (mounted "" offlineFetch).error =
        some "Failed to initialize session. Please check if the backend server is running." ∧
      handleSendBegin (changeText (mounted "" offlineFetch) "hello") =
        (changeText (mounted "" offlineFetch) "hello", none) :=
  have h := init_failure "" offlineFetch ⟨"TypeError", "Failed to fetch"⟩ rfl
  ⟨rfl, h.1, h.2.1, h.2.2.1, (h.2.2.2.1 "hello").1⟩

theorem initEnd_loading (st : ChatState) (r : Except JsError JsVal) :
    (initEnd st r).loading = st.loading := by
  cases r <;> rfl

/-- The in-flight invariant: either a send is outstanding, it is the only one and
`loading` is true, or none is outstanding and `loading` is false.  An event keeps
it when the handlers are those of an up-to-date render. -/
theorem step_in_flight (s : Sys) (ev : Event) (hsync : s.rendered = s.ui)
    (h : (s.ui.loading = true ∧ s.sends.length = 1) ∨ (s.ui.loading = false ∧ s.sends = [])) :
    ((s.step ev).ui.loading = true ∧ (s.step ev).sends.length = 1) ∨
      ((s.step ev).ui.loading = false ∧ (s.step ev).sends = []) := by
  cases ev with
  | initSettled r =>
    by_cases hout : s.initOutstanding = true
    · simpa [Sys.step, hout, initEnd_loading] using h
    · simpa [Sys.step, hout] using h
  | render => simpa [Sys.step] using h
  | change value => simpa [Sys.step, changeText] using h
  | submit =>
    have hstep : s.step .submit =
        { s with ui := (handleSendBegin s.ui).1, sends := s.sends ++ (handleSendBegin s.ui).2.toList } := by
      simp [Sys.step, hsync, handleSendBeginAt_self]
    rw [hstep]
    by_cases hguard :
        (!jsTruthy (.str (jsTrim s.ui.text)) || !jsTruthy s.ui.sessionId || s.ui.loading) = true
    · simpa [handleSendBegin_of_guard hguard] using h
    · rcases h with ⟨hload, _⟩ | ⟨_, hnone⟩
      · exact absurd (by simp [hload]) hguard
      · left
        simp [handleSendBegin_of_pass hguard, hnone]
  | sendSettled i r =>
    by_cases hi : i < s.sends.length
    · right
      rcases h with ⟨_, hone⟩ | ⟨_, hnone⟩
      · have hzero : i = 0 := by omega
        subst hzero
        match hs : s.sends, hone with
        | [c], _ => simp [Sys.step, hs, handleSendEnd_loading]
      · rw [hnone] at hi
        simp at hi
    · simpa [Sys.step, hi] using h

theorem foldl_in_flight :
    ∀ (events : List Event) (s : Sys),
      ((s.ui.loading = true ∧ s.sends.length = 1) ∨ (s.ui.loading = false ∧ s.sends = [])) →
      (((events.foldl (fun s ev => (s.step .render).step ev) s).ui.loading = true ∧
          (events.foldl (fun s ev => (s.step .render).step ev) s).sends.length = 1) ∨
        ((events.foldl (fun s ev => (s.step .render).step ev) s).ui.loading = false ∧
          (events.foldl (fun s ev => (s.step .render).step ev) s).sends = [])) := by
  intro events
  induction events with
  | nil => intro s h; exact h
  | cons ev rest ih =>
    intro s h
    exact ih ((s.step .render).step ev) (step_in_flight (s.step .render) ev rfl h)

/-- When React renders again before every event, `loading` is true exactly while
one `sendMessage` call is outstanding, and never more than one call is
outstanding. -/
theorem in_flight_when_rendered (events : List Event) :
    ((Sys.runRendered events).ui.loading = true ↔ (Sys.runRendered events).sends.length = 1) ∧
      (Sys.runRendered events).sends.length ≤ 1 := by
  have h := foldl_in_flight events Sys.start (Or.inr ⟨rfl, rfl⟩)
  unfold Sys.runRendered
  rcases h with ⟨hload, hone⟩ | ⟨hload, hnone⟩
  · simp [hload, hone]
  · simp [hload, hnone]

/-- C7 fails on the code.  After a successful initialization, `hello` typed and a
render, two submits handled before the next render both pass the guard, because
both read `loading = false` from the render that created `handleSend`: two
`sendMessage` calls are outstanding at once, both carry `hello`, and the user
message is in the log twice.  When the first call settles, `loading` turns false
while the second call is still outstanding. -/
theorem double_submit_two_in_flight :
    (Sys.run doubleSubmit).rendered.loading = false ∧
      (Sys.run doubleSubmit).ui.loading = true ∧
      (Sys.run doubleSubmit).sends.length = 2 ∧
      (Sys.run doubleSubmit).sends.map SendCall.text = [.str "hello", .str "hello"] ∧
      (Sys.run doubleSubmit).ui.messages =
        [{ role := "user", text := .str "hello" }, { role := "user", text := .str "hello" }] ∧
      (Sys.run (doubleSubmit ++
          [.sendSettled 0 (.ok (.obj [("reply", .str "I feel fine")]))])).ui.loading = false ∧
      (Sys.run (doubleSubmit ++
          [.sendSettled 0 (.ok (.obj [("reply", .str "I feel fine")]))])).sends.length = 1 := by
  refine ⟨rfl, rfl, rfl, rfl, rfl, rfl, rfl⟩

/-- C9. For every session and text, `sendMessage` issues exactly one request,
whose body has exactly the fields `session_id`, the given session, and `message`,
the given text.  It raises the transport error when `fetch` rejects, raises an
error when the response status is outside 200 to 299, and with a status inside
that range it returns what parsing the response body gives. -/
theorem sendMessage_contract (API_BASE_URL : String) (fetch : Fetch) (session text : String) :
    (sendMessage API_BASE_URL fetch (.str session) (.str text)).1 =
        [messageRequest API_BASE_URL (.str session) (.str text)] ∧
      (messageRequest API_BASE_URL (.str session) (.str text)).body =
        some (.obj [("session_id", .str session), ("message", .str text)]) ∧
      (∀ e, fetch (messageRequest API_BASE_URL (.str session) (.str text)) = .error e →
        (sendMessage API_BASE_URL fetch (.str session) (.str text)).2 = .error e) ∧
      (∀ res, fetch (messageRequest API_BASE_URL (.str session) (.str text)) = .ok res →
        ¬ (200 ≤ res.status ∧ res.status ≤ 299) →
        (sendMessage API_BASE_URL fetch (.str session) (.str text)).2 =
          .error ⟨"Error", "Failed to send message: " ++ res.statusText⟩) ∧
      (∀ res, fetch (messageRequest API_BASE_URL (.str session) (.str text)) = .ok res →
        200 ≤ res.status ∧ res.status ≤ 299 →
        (sendMessage API_BASE_URL fetch (.str session) (.str text)).2 = res.json) := by
  refine ⟨rfl, rfl, ?_, ?_, ?_⟩
  · intro e he
    simp [sendMessage, he]
  · intro res hres hstatus
    simp [sendMessage, hres, Response.ok, hstatus]
  · intro res hres hstatus
    simp [sendMessage, hres, Response.ok, hstatus]

/-- C9, on a network that rejects, on a backend that answers 500 and on one that
answers 200 with the body `{reply: "I feel fine"}`. -/
theorem sendMessage_contract_witness :
    (sendMessage "" offlineFetch (.str "abc123") (.str "hello")).2 =
        .error ⟨"TypeError", "Failed to fetch"⟩ ∧
      (sendMessage "" serverErrorFetch (.str "abc123") (.str "hello")).2 =
        .error ⟨"Error", "Failed to send message: Internal Server Error"⟩ ∧
      (sendMessage "" (okFetch (.obj [("reply", .str "I feel fine")]))
          (.str "abc123") (.str "hello")).2 = .ok (.obj [("reply", .str "I feel fine")]) :=
  ⟨(sendMessage_contract "" offlineFetch "abc123" "hello").2.2.1 _ rfl,
    (sendMessage_contract "" serverErrorFetch "abc123" "hello").2.2.2.1 _ rfl (by decide),
    (sendMessage_contract "" (okFetch (.obj [("reply", .str "I feel fine")]))
      "abc123" "hello").2.2.2.2 _ rfl (by decide)⟩

end Chat
